import Mathlib

/-!
Shallow embedding of the pullus-sheets-backup repository
(`backup_sheets.py`, `config.py`) and proofs about its behaviour.

Conventions of the embedding:
* Python floats are modelled as rationals (`ℚ`); every float appearing in the
  source (`1.0`, `60.0`, `0.25`, `2 ** attempt` for the attempts that occur)
  is exactly representable, so no rounding is lost.
* A Python exception is modelled by `PyError`: the optional `e.resp.status`
  attribute, the optional `retry-after` attribute of the response, and `str(e)`.
* A fallible remote call is modelled as `Except PyError α`; the wrapped
  operation handed to the retry decorator is a function from the zero-based
  attempt index to the outcome of that call.
* `random.random()` draws are supplied explicitly (`r`, or `rng : Nat → ℚ`,
  one draw per attempt), with the range `0 ≤ r < 1` stated as hypotheses.
* A pandas DataFrame is modelled by its list of rows (`Frame`); `df.empty`
  corresponds to the empty list of rows.
-/

/-! ## Error-message sanitization (`sanitize_error_message`, lines 21-28) -/

/-- Characters matched by the regex character class `[a-zA-Z0-9_-]`. -/
def idChar (c : Char) : Bool :=
  ('a' ≤ c && c ≤ 'z') || ('A' ≤ c && c ≤ 'Z') || ('0' ≤ c && c ≤ '9') ||
    c == '_' || c == '-'

/-- Characters matched by the regex class `\s` (ASCII whitespace). -/
def isSpaceChar (c : Char) : Bool :=
  c == ' ' || c == '\t' || c == '\n' || c == '\r' || c == '\x0b' || c == '\x0c'

/-- ASCII lower-casing of one character, modelling Python `str.lower()`
on the ASCII range. -/
def asciiLower (c : Char) : Char :=
  if 'A' ≤ c ∧ c ≤ 'Z' then Char.ofNat (c.toNat + 32) else c

/-- `leadsWith p l` is true when `p` is an initial segment of `l`. -/
def leadsWith : List Char → List Char → Bool
  | [], _ => true
  | _ :: _, [] => false
  | p :: ps, c :: cs => p == c && leadsWith ps cs

/-- `hasSub needle hay` is true when `needle` occurs contiguously in `hay`. -/
def hasSub (needle : List Char) : List Char → Bool
  | [] => leadsWith needle []
  | c :: cs => leadsWith needle (c :: cs) || hasSub needle (c :: cs).tail

/-- `re.sub(r'[a-zA-Z0-9_-]{44}', '[SHEET_ID]', _)`: leftmost non-overlapping
replacement of 44-character identifier runs.  `fuel` bounds the number of
scanning steps; each step consumes at least one character, so `fuel =
input length` is enough. -/
def sub44 : Nat → List Char → List Char
  | 0, _ => []
  | _, [] => []
  | fuel + 1, c :: cs =>
    if 44 ≤ (c :: cs).length ∧ ((c :: cs).take 44).all idChar = true then
      "[SHEET_ID]".data ++ sub44 fuel ((c :: cs).drop 44)
    else
      c :: sub44 fuel cs

/-- `re.sub(r'https://sheets\.googleapis\.com/[^\s]*', '[SHEETS_API_URL]', _)`:
a match is the 30-character literal followed by the maximal run of
non-whitespace characters. -/
def subSheetsUrl : Nat → List Char → List Char
  | 0, _ => []
  | _, [] => []
  | fuel + 1, c :: cs =>
    if leadsWith "https://sheets.googleapis.com/".data (c :: cs) = true then
      "[SHEETS_API_URL]".data ++
        subSheetsUrl fuel (((c :: cs).drop 30).dropWhile (fun ch => !isSpaceChar ch))
    else
      c :: subSheetsUrl fuel cs

/-- `re.sub(r'https://[^\s]*googleapis\.com[^\s]*', '[GOOGLE_API_URL]', _)`:
a match starts with the literal `https://`, contains `googleapis.com`
somewhere after it inside the same non-whitespace run, and (by greediness of
the trailing `[^\s]*`) extends to the end of that run. -/
def subGoogleUrl : Nat → List Char → List Char
  | 0, _ => []
  | _, [] => []
  | fuel + 1, c :: cs =>
    let run := (c :: cs).takeWhile (fun ch => !isSpaceChar ch)
    if leadsWith "https://".data (c :: cs) = true ∧
        hasSub "googleapis.com".data (run.drop 8) = true then
      "[GOOGLE_API_URL]".data ++ subGoogleUrl fuel ((c :: cs).drop run.length)
    else
      c :: subGoogleUrl fuel cs

/-- `sanitize_error_message` (lines 21-28): the three `re.sub` passes applied
in source order. -/
def sanitize_error_message (s : String) : String :=
  let p1 := sub44 s.data.length s.data
  let p2 := subSheetsUrl p1.length p1
  let p3 := subGoogleUrl p2.length p2
  String.mk p3

/-! ## `RateLimiter` (lines 37-97) -/

/-- `RateLimiter.max_retries` default (line 40). -/
def max_retries : Nat := 5

/-- `RateLimiter.base_delay` (line 42). -/
def base_delay : ℚ := 1

/-- `RateLimiter.max_delay` (line 43). -/
def max_delay : ℚ := 60

/-- `RateLimiter.exponential_backoff_with_jitter` (lines 45-49), with the
`random.random()` draw `r` passed explicitly. -/
def exponential_backoff_with_jitter (attempt : Nat) (r : ℚ) : ℚ :=
  let delay := min (base_delay * 2 ^ attempt) max_delay
  let jitter := delay * 0.25 * r
  delay + jitter

/-- The backoff value before jitter is added (the `delay` local of
`exponential_backoff_with_jitter`, line 47). -/
def backoffDelay (attempt : Nat) : ℚ :=
  min (base_delay * 2 ^ attempt) max_delay

/-- Model of a Python exception as observed by the retry decorator:
`status` is `e.resp.status` when `e` has a `resp` with a `status`
attribute, `retryAfter` is the `retry-after` attribute of `e.resp`
when present, and `msg` is `str(e)`. -/
structure PyError where
  status : Option Nat
  retryAfter : Option ℚ
  msg : String
deriving DecidableEq

/-- The `"quota" in str(e).lower() or "rate" in str(e).lower()` test
(line 84). -/
def isQuotaOrRate (msg : String) : Bool :=
  let lowered := msg.data.map asciiLower
  hasSub "quota".data lowered || hasSub "rate".data lowered

/-- The failure classification and delay choice of the decorator's `except`
block (lines 67-89): `some d` means the failure is retryable and the chosen
delay is `d`; `none` means the `break` (non-retryable) branch is taken.
Line 72's `if retry_after:` is a Python truthiness test on the numeric
attribute, so an absent `retry-after` *and* a present-but-zero one both
fall through to the exponential backoff. -/
def errorDelay (e : PyError) (attempt : Nat) (r : ℚ) : Option ℚ :=
  match e.status with
  | some status_code =>
    if status_code = 429 then
      match e.retryAfter with
      | some retry_after =>
        if retry_after ≠ 0 then some retry_after
        else some (exponential_backoff_with_jitter attempt r)
      | none => some (exponential_backoff_with_jitter attempt r)
    else if 500 ≤ status_code then
      some (exponential_backoff_with_jitter attempt r)
    else
      none
  | none =>
    if isQuotaOrRate e.msg = true then
      some (exponential_backoff_with_jitter attempt r)
    else
      none

/-- Observable behaviour of one invocation of a decorated function:
the value returned or exception raised (`.error none` models the
degenerate `raise None` when the loop body never ran), the number of calls
made to the wrapped function, and the list of delays passed to
`time.sleep` inside the retry loop, in order. -/
structure ExecResult (α : Type) where
  result : Except (Option PyError) α
  calls : Nat
  sleeps : List ℚ

/-- One pass of the `for attempt in range(max_retries)` loop of
`rate_limit_decorator` (lines 54-96).  `fuel` is the number of loop
iterations still available (`max_retries - attempt`), `last` is the
current `last_exception`. -/
def rateLimitAux {α : Type} (op : Nat → Except PyError α) (rng : Nat → ℚ)
    (maxRetries : Nat) : Nat → Option PyError → Nat → ExecResult α
  | _, last, 0 => ⟨.error last, 0, []⟩
  | attempt, _, fuel + 1 =>
    match op attempt with
    | .ok a => ⟨.ok a, 1, []⟩
    | .error e =>
      match errorDelay e attempt (rng attempt) with
      | none => ⟨.error (some e), 1, []⟩
      | some d =>
        let rest := rateLimitAux op rng maxRetries (attempt + 1) (some e) fuel
        ⟨rest.result, rest.calls + 1,
          if attempt + 1 < maxRetries then d :: rest.sleeps else rest.sleeps⟩

/-- `RateLimiter.rate_limit_decorator` applied to an operation (lines 51-97):
run up to `maxRetries` attempts, starting at attempt 0 with
`last_exception = None`. -/
def rateLimitCall {α : Type} (maxRetries : Nat) (op : Nat → Except PyError α)
    (rng : Nat → ℚ) : ExecResult α :=
  rateLimitAux op rng maxRetries 0 none maxRetries

/-! ## Extraction reshaping (`_fetch_sheet_data`, lines 183-189) -/

/-- A pandas DataFrame, modelled by its rows. -/
abbrev Frame := List (List String)

/-- The per-row pad-or-truncate step of `_fetch_sheet_data`
(lines 184-188): rows shorter than the header are right-padded with `''`,
rows longer than the header are truncated to the header length. -/
def padOrTruncateRow (header row : List String) : List String :=
  if row.length < header.length then
    row ++ List.replicate (header.length - row.length) ""
  else if row.length > header.length then
    row.take header.length
  else
    row

/-! ## Archival (`_upload_to_s3`, lines 229-254) -/

/-- A wall-clock instant in the Africa/Lagos timezone, to the second, as
observed by `datetime.now(wat_tz)`. -/
structure WATTime where
  year : Nat
  month : Nat
  day : Nat
  hour : Nat
  minute : Nat
  second : Nat
deriving DecidableEq

/-- Zero-padded decimal rendering of width `width` (strftime `%Y`, `%m`,
`%d`, `%I`, `%M`). -/
def padNum (width n : Nat) : String :=
  let s := toString n
  String.mk (List.replicate (width - s.length) '0') ++ s

/-- strftime `%I`: the 12-hour clock hour, `01`-`12`. -/
def hour12 (h : Nat) : Nat :=
  if h % 12 = 0 then 12 else h % 12

/-- `datetime.now(wat_tz).strftime('%Y%m%d_%I-%M%p_WAT')` (line 234).
Seconds do not appear in the format. -/
def watStamp (t : WATTime) : String :=
  padNum 4 t.year ++ padNum 2 t.month ++ padNum 2 t.day ++ "_" ++
    padNum 2 (hour12 t.hour) ++ "-" ++ padNum 2 t.minute ++
    (if t.hour < 12 then "AM" else "PM") ++ "_WAT"

/-- The destination key `f"pullus/sales/{sheet_name}/{timestamp}.parquet"`
(line 235). -/
def s3_key (sheet_name : String) (t : WATTime) : String :=
  "pullus/sales/" ++ sheet_name ++ "/" ++ watStamp t ++ ".parquet"

/-- `put_object` semantics of the S3 bucket (line 241): a write to an
existing key replaces its body. -/
def s3Put (store : String → Option Frame) (key : String) (body : Frame) :
    String → Option Frame :=
  fun k => if k = key then some body else store k

/-- The log line of `_upload_to_s3`'s `except` branch (line 253):
`f"Failed to upload {sheet_name} to S3: {e}"` — note the raw `{e}`. -/
def uploadFailureLog (sheet_name msg : String) : String :=
  "Failed to upload " ++ sheet_name ++ " to S3: " ++ msg

/-! ## Orchestration (`backup_single_sheet`, `backup_all_sheets`, `main`) -/

/-- The `result` dict built by `backup_single_sheet` (lines 259-296).
`duration_seconds` is wall-clock time and is not modelled. -/
structure Outcome where
  sheet_name : String
  success : Bool
  error : Option String
  s3_url : Option String
  rows_backed_up : Nat
deriving DecidableEq

/-- `backup_single_sheet` (lines 256-296): `fetchResult` is the outcome of
the (decorated) `_fetch_sheet_data` call, `uploadResult data` the outcome
of the (decorated) `_upload_to_s3` call on the fetched data.  A raised
exception in either is caught by the `except` block, which records the
sanitized `str(e)`. -/
def backup_single_sheet (sheet_name : String)
    (fetchResult : Except PyError Frame)
    (uploadResult : Frame → Except PyError String) : Outcome :=
  match fetchResult with
  | .error e =>
    { sheet_name := sheet_name, success := false
      error := some (sanitize_error_message e.msg)
      s3_url := none, rows_backed_up := 0 }
  | .ok data =>
    if data.isEmpty then
      { sheet_name := sheet_name, success := false
        error := some "No data found in sheet"
        s3_url := none, rows_backed_up := 0 }
    else
      match uploadResult data with
      | .error e =>
        { sheet_name := sheet_name, success := false
          error := some (sanitize_error_message e.msg)
          s3_url := none, rows_backed_up := 0 }
      | .ok url =>
        { sheet_name := sheet_name, success := true
          error := none
          s3_url := some url, rows_backed_up := data.length }

/-- `backup_all_sheets` (lines 298-318): one outcome per configured
`(sheet_name, sheet_id)` pair, in configuration order. -/
def backup_all_sheets (cfg : List (String × String))
    (fetch : String → String → Except PyError Frame)
    (upload : String → Frame → Except PyError String) : List Outcome :=
  cfg.map (fun p => backup_single_sheet p.1 (fetch p.2 p.1) (upload p.1))

/-- The exit-code computation of `main` on a completed run
(lines 396-408). -/
def exit_code (results : List Outcome) : Nat :=
  let successful := (results.filter (fun r => r.success)).length
  let total := results.length
  if successful = total then 0
  else if 0 < successful then 1
  else 2

/-- `main` (lines 389-412): an exception escaping orchestration reaches the
outer `except` and exits with code 3; otherwise the completed outcome list
is classified by `exit_code`. -/
def mainExit (run : Except PyError (List Outcome)) : Nat :=
  match run with
  | .ok results => exit_code results
  | .error _ => 3

/-- A 44-character value drawn from `[a-zA-Z0-9_-]`, the shape of a Google
spreadsheet id. -/
def sheetId44 : String :=
  "abcdefghijklmnopqrstuvwxyzABCDEFGHIJKLMN1234"

/-! ## Helper lemmas -/

theorem length_filter_eq_length_iff {α : Type} (p : α → Bool) (l : List α) :
    (l.filter p).length = l.length ↔ ∀ a ∈ l, p a = true := by
  induction l with
  | nil => simp
  | cons x xs ih =>
    by_cases h : p x = true
    · simp [List.filter_cons_of_pos h, h, ih]
    · rw [List.filter_cons_of_neg h]
      have hle := List.length_filter_le p xs
      simp only [List.length_cons]
      constructor
      · intro hlen; omega
      · intro hall
        exact absurd (hall x (by simp)) (by simp [h])

theorem length_filter_pos_iff {α : Type} (p : α → Bool) (l : List α) :
    0 < (l.filter p).length ↔ ∃ a ∈ l, p a = true := by
  induction l with
  | nil => simp
  | cons x xs ih =>
    by_cases h : p x = true
    · simp [List.filter_cons_of_pos h, h]
    · rw [List.filter_cons_of_neg h]
      simp only [List.mem_cons]
      constructor
      · intro hpos
        obtain ⟨a, ha, hpa⟩ := ih.1 hpos
        exact ⟨a, Or.inr ha, hpa⟩
      · rintro ⟨a, ha | ha, hpa⟩
        · exact absurd (ha ▸ hpa) (by simp [h])
        · exact ih.2 ⟨a, ha, hpa⟩

/-! ## Claim theorems -/

/-- Claim C1: the exit code of a run is determined four ways from the final
outcome sequence: all outcomes successful gives exit code 0, at least one
but not all successful gives exit code 1, none successful (with at least
one item processed) gives exit code 2, and an exception escaping
orchestration gives exit code 3. -/
theorem claim_C1 (results : List Outcome) (e : PyError) :
    ((∀ r ∈ results, r.success = true) → mainExit (.ok results) = 0) ∧
    ((∃ r ∈ results, r.success = true) → (∃ r ∈ results, r.success = false) →
      mainExit (.ok results) = 1) ∧
    ((∀ r ∈ results, r.success = false) → results ≠ [] →
      mainExit (.ok results) = 2) ∧
    mainExit (.error e) = 3 := by
  refine ⟨?_, ?_, ?_, rfl⟩
  · intro hall
    have h := (length_filter_eq_length_iff (fun r => r.success) results).2 hall
    simp [mainExit, exit_code, h]
  · rintro ⟨a, ha, hsa⟩ ⟨b, hb, hfb⟩
    have hpos : 0 < (results.filter (fun r => r.success)).length :=
      (length_filter_pos_iff _ _).2 ⟨a, ha, hsa⟩
    have hne : ¬ (results.filter (fun r => r.success)).length = results.length := by
      intro hEq
      have := (length_filter_eq_length_iff (fun r => r.success) results).1 hEq b hb
      rw [hfb] at this
      exact Bool.false_ne_true this
    simp [mainExit, exit_code, hne, hpos]
  · intro hall hne
    have h0 : (results.filter (fun r => r.success)).length = 0 := by
      by_contra hpos
      obtain ⟨a, ha, hpa⟩ := (length_filter_pos_iff (fun r => r.success) results).1
        (Nat.pos_of_ne_zero hpos)
      rw [hall a ha] at hpa
      exact Bool.false_ne_true hpa
    have hlen : results.length ≠ 0 := by
      simpa using fun h => hne (List.eq_nil_of_length_eq_zero h)
    simp only [mainExit, exit_code, h0]
    rw [if_neg (fun h => hlen h.symm), if_neg (by omega)]

/-- Claim C1 witness: concrete runs exercising each of the four exit codes. -/
theorem claim_C1_witness :
    mainExit (.ok [⟨"a", true, none, some "u", 3⟩]) = 0 ∧
    mainExit (.ok [⟨"a", true, none, some "u", 3⟩,
                   ⟨"b", false, some "boom", none, 0⟩]) = 1 ∧
    mainExit (.ok [⟨"b", false, some "boom", none, 0⟩]) = 2 ∧
    mainExit (.error ⟨none, none, "credential failure"⟩) = 3 := by
  refine ⟨?_, ?_, ?_, ?_⟩
  · exact (claim_C1 [⟨"a", true, none, some "u", 3⟩]
      ⟨none, none, "credential failure"⟩).1 (by decide)
  · exact (claim_C1 [⟨"a", true, none, some "u", 3⟩,
      ⟨"b", false, some "boom", none, 0⟩] ⟨none, none, "credential failure"⟩).2.1
      ⟨⟨"a", true, none, some "u", 3⟩, by simp, rfl⟩
      ⟨⟨"b", false, some "boom", none, 0⟩, by simp, rfl⟩
  · exact (claim_C1 [⟨"b", false, some "boom", none, 0⟩]
      ⟨none, none, "credential failure"⟩).2.2.1 (by decide) (by decide)
  · exact (claim_C1 [] ⟨none, none, "credential failure"⟩).2.2.2

/-- Claim C3: a recorded outcome has `success = true` iff extraction
returned non-empty data and the subsequent archival call succeeded; if
extraction raised, returned zero rows, or archival raised, `success` is
`false`. -/
theorem claim_C3 (sheet_name : String) (fetchResult : Except PyError Frame)
    (uploadResult : Frame → Except PyError String) :
    (backup_single_sheet sheet_name fetchResult uploadResult).success = true ↔
      ∃ data, fetchResult = .ok data ∧ data ≠ [] ∧
        ∃ url, uploadResult data = .ok url := by
  cases fetchResult with
  | error e => simp [backup_single_sheet]
  | ok data =>
    by_cases hempty : data.isEmpty = true
    · have hnil : data = [] := by simpa using hempty
      subst hnil
      simp [backup_single_sheet]
    · have hnil : ¬ data = [] := by simpa using hempty
      cases hup : uploadResult data with
      | error e2 => simp [backup_single_sheet, hempty, hup]
      | ok url => simp [backup_single_sheet, hempty, hup, hnil]

/-- Claim C9: the extraction adapter's reshaping yields a row whose length
exactly equals the header length; shorter rows are right-padded with empty
strings and longer rows are truncated to the header length. -/
theorem claim_C9 (header row : List String) :
    (padOrTruncateRow header row).length = header.length ∧
    (row.length < header.length →
      padOrTruncateRow header row =
        row ++ List.replicate (header.length - row.length) "") ∧
    (header.length < row.length →
      padOrTruncateRow header row = row.take header.length) := by
  unfold padOrTruncateRow
  by_cases h1 : row.length < header.length
  · rw [if_pos h1]
    refine ⟨?_, fun _ => rfl, fun h2 => absurd h2 (by omega)⟩
    simp only [List.length_append, List.length_replicate]
    omega
  · rw [if_neg h1]
    by_cases h2 : row.length > header.length
    · rw [if_pos h2]
      refine ⟨?_, fun h => absurd h h1, fun _ => rfl⟩
      simp only [List.length_take]
      omega
    · rw [if_neg h2]
      exact ⟨by omega, fun h => absurd h h1, fun h => absurd h h2⟩

/-- Claim C9 witness: a short row is padded to the 3-column header and a
long row is truncated to the 1-column header. -/
theorem claim_C9_witness :
    padOrTruncateRow ["a", "b", "c"] ["x"] = ["x", "", ""] ∧
    padOrTruncateRow ["a"] ["x", "y"] = ["x"] := by
  constructor
  · exact (claim_C9 ["a", "b", "c"] ["x"]).2.1 (by decide)
  · exact (claim_C9 ["a"] ["x", "y"]).2.2 (by decide)

/-- Claim C10: with an empty configured item mapping, the run produces an
empty outcome sequence and the process exits with code 0 (not 2), because
`successful == total` holds vacuously for the empty sequence. -/
theorem claim_C10 (fetch : String → String → Except PyError Frame)
    (upload : String → Frame → Except PyError String) :
    backup_all_sheets [] fetch upload = [] ∧ exit_code [] = 0 ∧
      mainExit (.ok []) = 0 ∧ exit_code [] ≠ 2 := by
  exact ⟨rfl, rfl, rfl, by decide⟩

/-- Claim C5: for every zero-based attempt index the backoff before jitter
equals `min(1.0 * 2^i, 60.0)` seconds, it is monotonically non-decreasing
in the attempt index, and with a `random.random()` draw in `[0, 1)` the
jittered total lies in `[min(2^i, 60), 1.25 * min(2^i, 60)]`. -/
theorem claim_C5 (i j : Nat) (r : ℚ) (hr0 : 0 ≤ r) (hr1 : r < 1) (hij : i ≤ j) :
    backoffDelay i = min (2 ^ i) 60 ∧
    backoffDelay i ≤ backoffDelay j ∧
    backoffDelay i ≤ exponential_backoff_with_jitter i r ∧
    exponential_backoff_with_jitter i r ≤ 5 / 4 * backoffDelay i := by
  simp only [backoffDelay, exponential_backoff_with_jitter, base_delay, max_delay,
    one_mul]
  have hd : (0 : ℚ) ≤ min ((2 : ℚ) ^ i) 60 := le_min (by positivity) (by norm_num)
  refine ⟨trivial, min_le_min (pow_le_pow_right₀ (by norm_num) hij) le_rfl, ?_, ?_⟩
  · have hj : 0 ≤ min ((2 : ℚ) ^ i) 60 * 0.25 * r := by positivity
    linarith
  · have hdr : 0 ≤ min ((2 : ℚ) ^ i) 60 * (1 - r) := mul_nonneg hd (by linarith)
    nlinarith [hdr]

/-- Claim C5 witness: attempt indices 1 ≤ 2 with draw 1/2. -/
theorem claim_C5_witness :
    backoffDelay 1 = min (2 ^ 1) 60 ∧
    backoffDelay 1 ≤ backoffDelay 2 ∧
    backoffDelay 1 ≤ exponential_backoff_with_jitter 1 (1 / 2) ∧
    exponential_backoff_with_jitter 1 (1 / 2) ≤ 5 / 4 * backoffDelay 1 :=
  claim_C5 1 2 (1 / 2) (by norm_num) (by norm_num) (by norm_num)

/-- Claim C6 counterexample: a 429 failure carrying an explicit suggested
wait of 0 is inside the claim's quantifier, but line 72's `if retry_after:`
truthiness test is false at 0, so the program computes the exponential
backoff (here 1 second at attempt 0 with draw 0) instead of using the
suggested value 0 verbatim. -/
theorem claim_C6_counterexample :
    errorDelay ⟨some 429, some 0, "Too many requests"⟩ 0 0 ≠ some 0 ∧
    errorDelay ⟨some 429, some 0, "Too many requests"⟩ 0 0 =
      some (exponential_backoff_with_jitter 0 0) := by
  have hd : errorDelay ⟨some 429, some 0, "Too many requests"⟩ 0 0 =
      some (exponential_backoff_with_jitter 0 0) := by
    simp [errorDelay]
  have hb : exponential_backoff_with_jitter 0 0 = 1 := by
    simp only [exponential_backoff_with_jitter, base_delay, max_delay]
    norm_num [min_def]
  refine ⟨?_, hd⟩
  rw [hd, hb]
  intro h
  exact absurd (Option.some.inj h) (by norm_num)

/-- Claim C6, corrected: for a rate-limited failure (status 429) carrying
an explicit *nonzero* (truthy) `retry-after` value, the chosen delay is
exactly that value; the exponential-backoff-with-jitter computation is
bypassed.  A present-but-zero (falsy) value is treated like an absent one
and falls through to exponential backoff (see the counterexample). -/
theorem claim_C6 (e : PyError) (ra : ℚ) (attempt : Nat) (r : ℚ)
    (h429 : e.status = some 429) (hra : e.retryAfter = some ra)
    (hnz : ra ≠ 0) :
    errorDelay e attempt r = some ra := by
  simp [errorDelay, h429, hra, hnz]

/-- Claim C6 witness (for the corrected claim): a 429 failure with
`retry-after` 7 yields delay 7 regardless of attempt index and random
draw. -/
theorem claim_C6_witness :
    errorDelay ⟨some 429, some 7, "Too many requests"⟩ 3 (1 / 2) = some 7 :=
  claim_C6 ⟨some 429, some 7, "Too many requests"⟩ 7 3 (1 / 2) rfl rfl
    (by norm_num)

/-- Claim C4: a first failure with no rate-limit status, no server-side 5xx
status and no quota/rate keyword takes the `break` branch: the wrapped
operation is called exactly once, no sleep is performed, and the failure
is re-raised. -/
theorem claim_C4 {α : Type} (maxRetries : Nat) (op : Nat → Except PyError α)
    (rng : Nat → ℚ) (e : PyError)
    (hmax : 1 ≤ maxRetries)
    (hop : op 0 = .error e)
    (h429 : e.status ≠ some 429)
    (h5xx : ∀ s, e.status = some s → s < 500)
    (hkw : isQuotaOrRate e.msg = false) :
    (rateLimitCall maxRetries op rng).result = .error (some e) ∧
    (rateLimitCall maxRetries op rng).calls = 1 ∧
    (rateLimitCall maxRetries op rng).sleeps = [] := by
  have hnone : errorDelay e 0 (rng 0) = none := by
    cases hst : e.status with
    | none => simp [errorDelay, hst, hkw]
    | some s =>
      have hs429 : ¬ s = 429 := fun h => h429 (by rw [hst, h])
      have hs5 : ¬ 500 ≤ s := by have := h5xx s hst; omega
      simp [errorDelay, hst, hs429, hs5]
  obtain ⟨m, rfl⟩ : ∃ m, maxRetries = m + 1 := ⟨maxRetries - 1, by omega⟩
  simp [rateLimitCall, rateLimitAux, hop, hnone]

/-- Claim C4 witness: a 403 "forbidden" failure is called exactly once with
no sleeps, under the default retry budget of 5. -/
theorem claim_C4_witness :
    (rateLimitCall 5
        (fun _ => (.error ⟨some 403, none, "forbidden"⟩ : Except PyError Nat))
        (fun _ => 0)).result = .error (some ⟨some 403, none, "forbidden"⟩) ∧
    (rateLimitCall 5
        (fun _ => (.error ⟨some 403, none, "forbidden"⟩ : Except PyError Nat))
        (fun _ => 0)).calls = 1 ∧
    (rateLimitCall 5
        (fun _ => (.error ⟨some 403, none, "forbidden"⟩ : Except PyError Nat))
        (fun _ => 0)).sleeps = [] :=
  claim_C4 5 _ _ ⟨some 403, none, "forbidden"⟩ (by norm_num) rfl (by decide)
    (fun s hs => by injection hs with h; omega) (by decide)

theorem rateLimitAux_step {α : Type} (op : Nat → Except PyError α) (rng : Nat → ℚ)
    (maxRetries attempt : Nat) (last : Option PyError) (fuel : Nat) :
    rateLimitAux op rng maxRetries attempt last (fuel + 1) =
      match op attempt with
      | .ok a => ⟨.ok a, 1, []⟩
      | .error e =>
        match errorDelay e attempt (rng attempt) with
        | none => ⟨.error (some e), 1, []⟩
        | some d =>
          let rest := rateLimitAux op rng maxRetries (attempt + 1) (some e) fuel
          ⟨rest.result, rest.calls + 1,
            if attempt + 1 < maxRetries then d :: rest.sleeps else rest.sleeps⟩ :=
  rfl

theorem rateLimitAux_all_fail {α : Type} (op : Nat → Except PyError α)
    (rng : Nat → ℚ) (err : Nat → PyError) (maxRetries : Nat) :
    ∀ fuel attempt last, 1 ≤ fuel → attempt + fuel = maxRetries →
    (∀ i, attempt ≤ i → i < maxRetries → op i = .error (err i)) →
    (∀ i, attempt ≤ i → i + 1 < maxRetries → errorDelay (err i) i (rng i) ≠ none) →
    (rateLimitAux op rng maxRetries attempt last fuel).result
        = .error (some (err (maxRetries - 1))) ∧
    (rateLimitAux op rng maxRetries attempt last fuel).calls = fuel ∧
    (rateLimitAux op rng maxRetries attempt last fuel).sleeps.length = fuel - 1 := by
  intro fuel
  induction fuel with
  | zero => intro attempt last h1; omega
  | succ f ih =>
    intro attempt last h1 hsum hop hretry
    have hopa : op attempt = .error (err attempt) := hop attempt le_rfl (by omega)
    cases f with
    | zero =>
      have hAtt : maxRetries - 1 = attempt := by omega
      rw [rateLimitAux_step]
      cases hdel : errorDelay (err attempt) attempt (rng attempt) with
      | none =>
        simp only [hopa, hdel, hAtt]
        refine ⟨?_, ?_, ?_⟩ <;> trivial
      | some d =>
        have hlt : ¬ (attempt + 1 < maxRetries) := by omega
        simp only [hopa, hdel, hAtt, if_neg hlt]
        refine ⟨?_, ?_, ?_⟩ <;> trivial
    | succ f2 =>
      have hdelne : errorDelay (err attempt) attempt (rng attempt) ≠ none :=
        hretry attempt le_rfl (by omega)
      cases hd : errorDelay (err attempt) attempt (rng attempt) with
      | none => exact absurd hd hdelne
      | some d =>
        have hlt : attempt + 1 < maxRetries := by omega
        have hrest := ih (attempt + 1) (some (err attempt)) (by omega) (by omega)
          (fun i hi hi2 => hop i (by omega) hi2)
          (fun i hi hi2 => hretry i (by omega) hi2)
        rw [rateLimitAux_step]
        simp only [hopa, hd, if_pos hlt]
        refine ⟨hrest.1, ?_, ?_⟩
        · rw [hrest.2.1]
        · simp only [List.length_cons]
          rw [hrest.2.2]
          omega

/-- Claim C2: when every attempt fails and the retry budget is exhausted,
the decorator re-raises the last encountered failure (it never returns
normally), makes exactly `maxRetries` calls, and sleeps only after the
non-final failed attempts — `maxRetries - 1` sleeps, none after the final
attempt. -/
theorem claim_C2 {α : Type} (maxRetries : Nat) (op : Nat → Except PyError α)
    (rng : Nat → ℚ) (err : Nat → PyError)
    (hmax : 1 ≤ maxRetries)
    (hfail : ∀ i, i < maxRetries → op i = .error (err i))
    (hretry : ∀ i, i + 1 < maxRetries → errorDelay (err i) i (rng i) ≠ none) :
    (rateLimitCall maxRetries op rng).result
        = .error (some (err (maxRetries - 1))) ∧
    (rateLimitCall maxRetries op rng).calls = maxRetries ∧
    (rateLimitCall maxRetries op rng).sleeps.length = maxRetries - 1 :=
  rateLimitAux_all_fail op rng err maxRetries maxRetries 0 none hmax (by omega)
    (fun i _ h2 => hfail i h2) (fun i _ h2 => hretry i h2)

/-- Claim C2 witness: two attempts, both failing with a 500 server error:
the error is re-raised, two calls are made, one sleep happens (after the
first attempt only). -/
theorem claim_C2_witness :
    (rateLimitCall 2
        (fun _ => (.error ⟨some 500, none, "server error"⟩ : Except PyError Nat))
        (fun _ => 0)).result = .error (some ⟨some 500, none, "server error"⟩) ∧
    (rateLimitCall 2
        (fun _ => (.error ⟨some 500, none, "server error"⟩ : Except PyError Nat))
        (fun _ => 0)).calls = 2 ∧
    (rateLimitCall 2
        (fun _ => (.error ⟨some 500, none, "server error"⟩ : Except PyError Nat))
        (fun _ => 0)).sleeps.length = 1 :=
  claim_C2 2 _ _ (fun _ => ⟨some 500, none, "server error"⟩) (by norm_num)
    (fun _ _ => rfl) (fun i _ => by simp [errorDelay])

/-- Claim C7 counterexample: the failure log line of `_upload_to_s3`
(line 253) interpolates the raw exception text.  With an exception message
that is a 44-character identifier, the line surfaced to the log contains
the identifier verbatim, and differs from the line that the mandatory
sanitization step would have produced (which replaces it with
`[SHEET_ID]`). -/
theorem claim_C7_counterexample :
    uploadFailureLog "inventory" sheetId44 ≠
      uploadFailureLog "inventory" (sanitize_error_message sheetId44) ∧
    sanitize_error_message sheetId44 = "[SHEET_ID]" ∧
    hasSub sheetId44.data (uploadFailureLog "inventory" sheetId44).data = true := by
  refine ⟨by decide, by decide, by decide⟩

/-- Claim C7, corrected: the error strings recorded in a `BackupOutcome`
(and hence the ones forwarded to the notifier's failure-detail block) do
pass through `sanitize_error_message` first — every recorded error is
either absent, the fixed "No data found in sheet" text, or the sanitized
image of the raised exception's text.  The direct log lines in
`_init_google_sheets`, `_init_aws_s3`, `_upload_to_s3`,
`send_notification` and `main`, however, interpolate the raw exception
(see the counterexample). -/
theorem claim_C7 (sheet_name : String) (fetchResult : Except PyError Frame)
    (uploadResult : Frame → Except PyError String) :
    (backup_single_sheet sheet_name fetchResult uploadResult).error = none ∨
    (backup_single_sheet sheet_name fetchResult uploadResult).error =
      some "No data found in sheet" ∨
    ∃ raw, (backup_single_sheet sheet_name fetchResult uploadResult).error =
      some (sanitize_error_message raw) := by
  cases fetchResult with
  | error e => exact Or.inr (Or.inr ⟨e.msg, rfl⟩)
  | ok data =>
    by_cases hempty : data.isEmpty = true
    · simp [backup_single_sheet, hempty]
    · cases hup : uploadResult data with
      | error e2 =>
        refine Or.inr (Or.inr ⟨e2.msg, ?_⟩)
        simp [backup_single_sheet, hempty, hup]
      | ok url =>
        refine Or.inl ?_
        simp [backup_single_sheet, hempty, hup]

/-- Claim C8 counterexample: the destination key timestamp has only minute
resolution, so two distinct call instants in the same minute (seconds 5
and 47 here) produce the *same* destination locator, and the second
`put_object` overwrites the body stored by the first. -/
theorem claim_C8_counterexample :
    (⟨2025, 3, 14, 10, 30, 5⟩ : WATTime) ≠ ⟨2025, 3, 14, 10, 30, 47⟩ ∧
    s3_key "inventory" ⟨2025, 3, 14, 10, 30, 5⟩ =
      s3_key "inventory" ⟨2025, 3, 14, 10, 30, 47⟩ ∧
    s3Put (s3Put (fun _ => none) (s3_key "inventory" ⟨2025, 3, 14, 10, 30, 5⟩)
        [["1"]]) (s3_key "inventory" ⟨2025, 3, 14, 10, 30, 47⟩) [["2"]]
      (s3_key "inventory" ⟨2025, 3, 14, 10, 30, 5⟩) = some [["2"]] := by
  refine ⟨by decide, by decide, by decide⟩

/-- Claim C8, corrected: two archival calls for the same item produce
distinct destination locators exactly when their timestamps render to
distinct minute-level strings; in that case the retry adds a second object
and leaves the first intact (no overwrite).  Calls within the same
rendered minute collide (see the counterexample). -/
theorem claim_C8 (sheet_name : String) (t1 t2 : WATTime) (d1 d2 : Frame)
    (store : String → Option Frame)
    (h : watStamp t1 ≠ watStamp t2) :
    s3_key sheet_name t1 ≠ s3_key sheet_name t2 ∧
    s3Put (s3Put store (s3_key sheet_name t1) d1) (s3_key sheet_name t2) d2
        (s3_key sheet_name t1) = some d1 ∧
    s3Put (s3Put store (s3_key sheet_name t1) d1) (s3_key sheet_name t2) d2
        (s3_key sheet_name t2) = some d2 := by
  have hkey : s3_key sheet_name t1 ≠ s3_key sheet_name t2 := by
    intro heq
    apply h
    have hd := congrArg String.data heq
    simp only [s3_key, String.data_append] at hd
    have h1 := List.append_cancel_right hd
    have h2 := List.append_cancel_left h1
    exact congrArg String.mk h2
  refine ⟨hkey, ?_, ?_⟩
  · simp [s3Put, hkey]
  · simp [s3Put]

/-- Claim C8 witness (for the corrected claim): timestamps one minute apart
give distinct keys, and after both uploads both objects hold their own
data. -/
theorem claim_C8_witness :
    s3_key "inventory" ⟨2025, 3, 14, 10, 30, 0⟩ ≠
      s3_key "inventory" ⟨2025, 3, 14, 10, 31, 0⟩ ∧
    s3Put (s3Put (fun _ => none) (s3_key "inventory" ⟨2025, 3, 14, 10, 30, 0⟩)
        [["1"]]) (s3_key "inventory" ⟨2025, 3, 14, 10, 31, 0⟩) [["2"]]
      (s3_key "inventory" ⟨2025, 3, 14, 10, 30, 0⟩) = some [["1"]] ∧
    s3Put (s3Put (fun _ => none) (s3_key "inventory" ⟨2025, 3, 14, 10, 30, 0⟩)
        [["1"]]) (s3_key "inventory" ⟨2025, 3, 14, 10, 31, 0⟩) [["2"]]
      (s3_key "inventory" ⟨2025, 3, 14, 10, 31, 0⟩) = some [["2"]] :=
  claim_C8 "inventory" ⟨2025, 3, 14, 10, 30, 0⟩ ⟨2025, 3, 14, 10, 31, 0⟩
    [["1"]] [["2"]] (fun _ => none) (by decide)

/-- Claim C10 witness: the empty configuration instantiated with concrete
collaborator functions. -/
theorem claim_C10_witness :
    backup_all_sheets [] (fun _ _ => .ok [["x"]]) (fun _ _ => .ok "u") = [] ∧
      exit_code [] = 0 ∧ mainExit (.ok []) = 0 ∧ exit_code [] ≠ 2 :=
  claim_C10 (fun _ _ => .ok [["x"]]) (fun _ _ => .ok "u")
